import Mathlib

/-!
Verification of the minecraft-preempt proxy core against its source.

The development shallowly embeds the connection-handling pipeline of
`cmd/minecraft-preempt` (`proxy.go`, `conn.go`, `server.go`) and the
minecraft wire helpers of `internal/minecraft/client.go`:

* the Minecraft packet codec used by the proxy (varint, string, u16
  fields; packets as id plus raw body bytes),
* `Client.Handshake`, `Client.ReadLoginStart`, `Client.SendDisconnect`,
  `Client.SendStatus`,
* the backend controller `Server.Start` / `Server.Stop` over an abstract
  cloud provider, recording the RPCs issued,
* `Connection.status`, `Connection.checkState`, `Connection.Proxy`
  composed with the `OnLogin` / `OnClose` hooks installed by
  `Proxy.handleConnection`, producing an event trace (client writes,
  provider RPCs, backend dial, backend writes, piping),
* the idle watcher tick body of `Proxy.watcher` and `Proxy.Stop`.

Side effects are made explicit: network input is a list of packets,
network output and provider calls are an event trace, the per-backend
mutable state (`connections`, `emptySince`, `lastMinecraftStatus`) is
threaded as a value.  Strings in this development are ASCII, so byte
encoding of a string is modelled by its code points.
-/

namespace MCPreempt

/-- A decoded Minecraft packet: the varint packet id and the raw body
bytes that followed it (exactly `pk.Packet` of go-mc: `ID`, `Data`). -/
structure Packet where
  id : Nat
  data : List Nat
deriving DecidableEq, Repr

/-- Unsigned LEB128 varint decoder over raw bytes, as used by
`pk.VarInt` scanning: returns the value and the remaining bytes. -/
def readVarint : List Nat → Option (Nat × List Nat)
  | [] => none
  | b :: rest =>
    if b < 128 then some (b, rest)
    else
      match readVarint rest with
      | none => none
      | some (v, r) => some (b % 128 + 128 * v, r)

/-- Unsigned LEB128 varint encoder (inverse direction, used when the
proxy marshals a string field into a packet body). -/
def varintEnc (n : Nat) : List Nat :=
  if h : n < 128 then [n]
  else (n % 128 + 128) :: varintEnc (n / 128)
decreasing_by
  exact Nat.div_lt_self (by omega) (by omega)

/-- Big-endian unsigned short field (`pk.UnsignedShort`). -/
def readU16 : List Nat → Option (Nat × List Nat)
  | hi :: lo :: rest => some (hi * 256 + lo, rest)
  | _ => none

/-- Byte encoding of an ASCII string. -/
def strBytes (s : String) : List Nat :=
  s.data.map Char.toNat

/-- Decoding of ASCII bytes back into a string. -/
def bytesToStr (bs : List Nat) : String :=
  String.mk (bs.map Char.ofNat)

/-- Minecraft string field (`pk.String`): varint byte length followed by
that many bytes. -/
def readMCString (bs : List Nat) : Option (String × List Nat) :=
  match readVarint bs with
  | none => none
  | some (len, rest) =>
    if rest.length < len then none
    else some (bytesToStr (rest.take len), rest.drop len)

/-- Encoding of a Minecraft string field: varint byte length then the
bytes, exactly what `pk.String(...)` marshals into a packet body. -/
def encodeMCString (s : String) : List Nat :=
  varintEnc (strBytes s).length ++ strBytes s

/-- Status version block of `internal/minecraft.Status`. -/
structure StatusVersion where
  name : String
  protocol : Int
deriving DecidableEq, Repr

/-- Status players block of `internal/minecraft.Status`.  The Go
`Sample` field is a nullable slice of opaque `interface\x7b\x7d` values; it
is modelled as an optional list of the elements' JSON renderings. -/
structure StatusPlayers where
  max : Int
  online : Int
  sample : Option (List String)
deriving DecidableEq, Repr

/-- Status description block of `internal/minecraft.Status`. -/
structure StatusDescription where
  text : String
deriving DecidableEq, Repr

/-- `internal/minecraft.Status`: the first three fields are Go pointers
and hence nullable; `Favicon` is a plain Go string (zero value the
empty string) and, lacking omitempty, is always marshalled. -/
structure Status where
  version : Option StatusVersion
  players : Option StatusPlayers
  description : Option StatusDescription
  favicon : String
deriving DecidableEq, Repr

/-- JSON rendering of a string (the strings used by the proxy contain
no characters that require escaping). -/
def jsonStr (s : String) : String :=
  "\"" ++ s ++ "\""

/-- JSON rendering of `StatusVersion` under its `json` tags. -/
def StatusVersion.toJson : StatusVersion → String
  | ⟨n, p⟩ => "\x7b\"name\":" ++ jsonStr n ++ ",\"protocol\":" ++ toString p ++ "\x7d"

/-- JSON rendering of the nullable sample slice: a nil Go slice
marshals as `null`, a non-nil one as the array of its elements. -/
def sampleToJson : Option (List String) → String
  | none => "null"
  | some xs => "[" ++ String.intercalate (",") xs ++ "]"

/-- JSON rendering of `StatusPlayers` under its `json` tags. -/
def StatusPlayers.toJson : StatusPlayers → String
  | ⟨m, o, s⟩ => "\x7b\"max\":" ++ toString m ++ ",\"online\":" ++ toString o
      ++ ",\"sample\":" ++ sampleToJson s ++ "\x7d"

/-- JSON rendering of `StatusDescription` under its `json` tags. -/
def StatusDescription.toJson : StatusDescription → String
  | ⟨t⟩ => "\x7b\"text\":" ++ jsonStr t ++ "\x7d"

/-- JSON rendering of a nullable (pointer) field: `null` when absent. -/
def optJson {α : Type} (f : α → String) : Option α → String
  | none => "null"
  | some x => f x

/-- JSON rendering of `Status`, with the fields in declaration order as
`encoding/json` emits them. -/
def Status.toJson : Status → String
  | ⟨v, p, d, f⟩ =>
    "\x7b\"version\":" ++ optJson StatusVersion.toJson v
      ++ ",\"players\":" ++ optJson StatusPlayers.toJson p
      ++ ",\"description\":" ++ optJson StatusDescription.toJson d
      ++ ",\"favicon\":" ++ jsonStr f ++ "\x7d"

/-- The JSON body built by `Client.SendDisconnect` for a reason string:
`json.Marshal` of the Go map emits the keys in sorted order, so the
document is always `translate` first, then `with`. -/
def disconnectJson (reason : String) : String :=
  "\x7b\"translate\":\"chat.type.text\",\"with\":[\x7b\"text\":"
    ++ jsonStr reason ++ "\x7d]\x7d"

/-- The packet written by `Client.SendDisconnect`:
`pk.Marshal(0x00, pk.String(b))` where `b` is the JSON body. -/
def disconnectPacket (reason : String) : Packet :=
  ⟨0, encodeMCString (disconnectJson reason)⟩

/-- The packet written by `Client.SendStatus` in reply to a status
request: `pk.Marshal(p.ID, pk.String(b))` with `p.ID = 0x00` and `b`
the JSON rendering of the status. -/
def statusResponsePacket (st : Status) : Packet :=
  ⟨0, encodeMCString (Status.toJson st)⟩

/-- Parsed handshake (`internal/minecraft.Handshake`): the original
packet is retained for replay alongside the scanned fields. -/
structure Handshake where
  packet : Packet
  protocolVersion : Nat
  serverAddress : String
  serverPort : Nat
  nextState : Nat
deriving DecidableEq, Repr

/-- Parsed login-start packet (`internal/minecraft.LoginStart`). -/
structure LoginStart where
  name : String
deriving DecidableEq, Repr

/-- Field scan of a handshake body: varint protocol version, string
server address, u16 port, varint next state.  Trailing bytes beyond the
scanned fields are allowed and ignored, as `pk.Packet.Scan` allows. -/
def scanHandshake (data : List Nat) : Option (Nat × String × Nat × Nat) :=
  match readVarint data with
  | none => none
  | some (pv, r1) =>
    match readMCString r1 with
    | none => none
    | some (addr, r2) =>
      match readU16 r2 with
      | none => none
      | some (port, r3) =>
        match readVarint r3 with
        | none => none
        | some (ns, _) => some (pv, addr, port, ns)

/-- `Client.Handshake` of `internal/minecraft/client.go`: reads one
packet, requires id 0, scans the four handshake fields and returns the
parsed handshake (holding the original packet) plus the unread input. -/
def Client.Handshake (incoming : List Packet) :
    Except String (Handshake × List Packet) :=
  match incoming with
  | [] => .error ("EOF")
  | p :: rest =>
    if p.id ≠ 0 then .error ("packet ID is not handshake")
    else
      match scanHandshake p.data with
      | none => .error ("failed to scan packet")
      | some (pv, addr, port, ns) => .ok (⟨p, pv, addr, port, ns⟩, rest)

/-- `Client.ReadLoginStart`: reads one packet, requires id 0, scans a
single string (the player name; trailing bytes are ignored) and returns
the parsed login, the original packet and the unread input. -/
def Client.ReadLoginStart (incoming : List Packet) :
    Except String (LoginStart × Packet × List Packet) :=
  match incoming with
  | [] => .error ("EOF")
  | p :: rest =>
    if p.id ≠ 0 then .error ("packet ID is not login start")
    else
      match readMCString p.data with
      | none => .error ("failed to scan packet")
      | some (nm, _) => .ok (⟨nm⟩, p, rest)

/-- Loop body of `Client.SendStatus`: at most `fuel` packets are read
from the client (the source iterates twice); a packet of id 0x00 is
answered with the JSON status response, a packet of id 0x01 is echoed
back unchanged, and any other id produces no reply.  Running out of
input models a read error, which breaks the loop. -/
def sendStatusLoop (st : Status) : Nat → List Packet → List Packet
  | 0, _ => []
  | _ + 1, [] => []
  | n + 1, p :: rest =>
    (if p.id = 0 then [statusResponsePacket st]
     else if p.id = 1 then [p]
     else []) ++ sendStatusLoop st n rest

/-- `Client.SendStatus` of `internal/minecraft/client.go`: the reply
packets written while serving a status exchange over the given client
input. -/
def Client.SendStatus (st : Status) (incoming : List Packet) : List Packet :=
  sendStatusLoop st 2 incoming

/-- Normalized cloud status enum of `internal/cloud`. -/
inductive ProviderStatus
  | running
  | stopped
  | stopping
  | starting
  | unknown
deriving DecidableEq, Repr

/-- String form of a provider status, as interpolated into the offline
status description (`fmt.Sprintf` of the `ProviderStatus` string). -/
def ProviderStatus.toString : ProviderStatus → String
  | .running => "RUNNING"
  | .stopped => "STOPPED"
  | .stopping => "STOPPING"
  | .starting => "STARTING"
  | .unknown => "UNKNOWN"

/-- The three RPCs of the `cloud.Provider` interface used by the proxy
core. -/
inductive CloudRPC
  | statusRPC
  | startRPC
  | stopRPC
deriving DecidableEq, Repr

/-- Behaviour of the cloud provider during one interaction: the result
each RPC would return.  `Status` is read-only, so its result is stable
across the at most two reads a single code path performs. -/
structure CloudProvider where
  status : Except String ProviderStatus
  startRes : Except String Unit
  stopRes : Except String Unit

/-- `Server.Start` of `server.go`: reads the cloud status (one Status
RPC); if it errors the error is returned; if the instance is already
running nothing further happens; otherwise the Start RPC is issued.
Returns the RPCs issued and the call's result. -/
def Server.Start (p : CloudProvider) : List CloudRPC × Except String Unit :=
  match p.status with
  | .error e => ([.statusRPC], .error (e))
  | .ok st =>
    if st = .running then ([.statusRPC], .ok ())
    else ([.statusRPC, .startRPC], p.startRes)

/-- `Server.Stop` of `server.go`: reads the cloud status; if the
instance is already stopped nothing further happens; otherwise the Stop
RPC is issued. -/
def Server.Stop (p : CloudProvider) : List CloudRPC × Except String Unit :=
  match p.status with
  | .error e => ([.statusRPC], .error (e))
  | .ok st =>
    if st = .stopped then ([.statusRPC], .ok ())
    else ([.statusRPC, .stopRPC], p.stopRes)

/-- Per-server configuration fields consumed by the modelled paths
(`config.ServerConfig`): the whitelist and the idle shutdown duration.
Durations and times are abstract clock ticks. -/
structure ServerConfig where
  whitelist : List String
  shutdownAfter : Nat
deriving DecidableEq, Repr

/-- Mutable per-backend state of `Server` (`server.go`): the live
connection counter (`atomic.Uint64`), the nullable empty-since
timestamp, and the cached last Minecraft status. -/
structure ServerState where
  connections : Nat
  emptySince : Option Nat
  lastMinecraftStatus : Option Status
deriving DecidableEq, Repr

/-- One observable step of a connection's interaction with the outside
world, in the order the source performs them. -/
inductive Event
  | clientWrite (p : Packet)
  | rpc (c : CloudRPC)
  | dial
  | backendWrite (p : Packet)
  | pipe
deriving DecidableEq, Repr

/-- Modulus of the `uint64` connection counter. -/
def u64Mod : Nat := 18446744073709551616

/-- The `OnLogin` hook installed by `Proxy.handleConnection`: records
that the connection reached login, clears `emptySince` and increments
`connections` (`server.connections.Add(1)` on a `uint64`). -/
def ConnectionHooks.OnLogin (st : ServerState) : ServerState :=
  { st with emptySince := none, connections := (st.connections + 1) % u64Mod }

/-- The `OnClose` hook installed by `Proxy.handleConnection`, as run by
`Connection.Close`: when the connection had reached the login state the
counter is decremented (`Add(^uint64(0))`, a wrapping uint64 add);
nothing else is touched. -/
def ConnectionHooks.OnClose (madeItToLogin : Bool) (st : ServerState) : ServerState :=
  if madeItToLogin then
    { st with connections := (st.connections + (u64Mod - 1)) % u64Mod }
  else st

/-- `Connection.isWhitelisted` of `conn.go`: linear scan of the
configured whitelist for the player name. -/
def Connection.isWhitelisted (whitelist : List String) (playerName : String) : Bool :=
  whitelist.contains playerName

/-- `Connection.status` of `conn.go`: status synthesis.  When the cloud
status is RUNNING a live Minecraft ping is attempted (its outcome is the
`ping` argument): on ping failure the displayed status degrades to
UNKNOWN; on success with a non-null version the result is cached in
`lastMinecraftStatus`.  When no live status is available one is
fabricated from the cached version (falling back to name "unknown",
protocol 754), zero players, and the description text
"Server status: <STATUS>".  The chosen status is then served to the
client by `Client.SendStatus`.  Returns the client writes and the
updated server state. -/
def Connection.status (st : ServerState) (cs : ProviderStatus)
    (ping : Except String Status) (incoming : List Packet) :
    List Event × ServerState :=
  let (mcStatus?, cs', st') :=
    if cs = ProviderStatus.running then
      match ping with
      | .error _ => (none, ProviderStatus.unknown, st)
      | .ok s =>
        if s.version ≠ none then
          (some s, cs, { st with lastMinecraftStatus := some s })
        else (some s, cs, st)
    else (none, cs, st)
  let mcStatus :=
    match mcStatus? with
    | some s => s
    | none =>
      let v : Option StatusVersion :=
        match st'.lastMinecraftStatus with
        | some last => last.version
        | none => some ⟨"unknown", 754⟩
      ⟨v, some ⟨0, 0, none⟩, some ⟨"Server status: " ++ cs'.toString⟩, ""⟩
  ((Client.SendStatus mcStatus incoming).map .clientWrite, st')

/-- Result of `Connection.checkState` together with the events emitted,
the server state as mutated by the hooks, and whether the `OnLogin`
hook fired (the `madeItToLogin` flag of `Proxy.handleConnection`). -/
structure CheckStateResult where
  events : List Event
  state : ServerState
  madeItToLogin : Bool
  replay : Except String (List Packet)
deriving Repr

/-- `Connection.checkState` of `conn.go`, with the hooks of
`Proxy.handleConnection` inlined.  One Status RPC is issued first; on
error the connection fails with no reply.  State 1 serves the status
exchange.  State 2 reads the login start (firing `OnLogin`, which
increments `connections`), sends the whitelist rejection notice when the
whitelist is non-empty and misses the player (the source does not
return at that point), and when the cloud status is not RUNNING calls
`Server.Start` and sends the starting notice; only when the status is
RUNNING does it return the original login packet for replay. -/
def Connection.checkState (cfg : ServerConfig) (p : CloudProvider)
    (st : ServerState) (ping : Except String Status)
    (clientState : Nat) (incoming : List Packet) : CheckStateResult :=
  match p.status with
  | .error e => ⟨[.rpc .statusRPC], st, false, .error (e)⟩
  | .ok status =>
    if clientState = 1 then
      let (evs, st') := Connection.status st status ping incoming
      ⟨.rpc .statusRPC :: evs, st', false, .ok ([])⟩
    else if clientState = 2 then
      match Client.ReadLoginStart incoming with
      | .error e => ⟨[.rpc .statusRPC], st, false, .error (e)⟩
      | .ok (login, originalLogin, _) =>
        let st1 := ConnectionHooks.OnLogin st
        let wlEvents : List Event :=
          if cfg.whitelist ≠ [] ∧ ¬Connection.isWhitelisted cfg.whitelist login.name then
            [.clientWrite (disconnectPacket ("You are not whitelisted on this server"))]
          else []
        if status ≠ ProviderStatus.running then
          let (rpcs, res) := Server.Start p
          match res with
          | .error e =>
            ⟨.rpc .statusRPC :: wlEvents ++ rpcs.map .rpc, st1, true, .error (e)⟩
          | .ok _ =>
            ⟨.rpc .statusRPC :: wlEvents ++ rpcs.map .rpc
              ++ [.clientWrite (disconnectPacket
                    ("Server is being started, please try again later"))],
             st1, true, .ok ([])⟩
        else
          ⟨.rpc .statusRPC :: wlEvents, st1, true, .ok ([originalLogin])⟩
    else ⟨[.rpc .statusRPC], st, false, .error ("unknown client state")⟩

/-- Result of `Connection.Proxy`: the event trace, the server state as
mutated by the hooks, the `madeItToLogin` flag, and the call's
outcome. -/
structure ProxyResult where
  events : List Event
  state : ServerState
  madeItToLogin : Bool
  result : Except String Unit
deriving Repr

/-- `Connection.Proxy` of `conn.go`: reads the handshake (clean EOF is
swallowed), dispatches through `checkState`, and when replay packets
come back dials the backend, writes the original handshake packet
followed by the replay packets verbatim, and starts the bidirectional
pipe. -/
def Connection.Proxy (cfg : ServerConfig) (p : CloudProvider)
    (st : ServerState) (ping : Except String Status)
    (incoming : List Packet) : ProxyResult :=
  match incoming with
  | [] => ⟨[], st, false, .ok ()⟩
  | _ :: _ =>
    match Client.Handshake incoming with
    | .error e => ⟨[], st, false, .error (e)⟩
    | .ok (h, rest) =>
      let r := Connection.checkState cfg p st ping h.nextState rest
      match r.replay with
      | .error e => ⟨r.events, r.state, r.madeItToLogin, .error (e)⟩
      | .ok replayPackets =>
        if replayPackets = [] then
          ⟨r.events, r.state, r.madeItToLogin, .ok ()⟩
        else
          ⟨r.events ++ .dial :: (h.packet :: replayPackets).map .backendWrite
              ++ [.pipe],
           r.state, r.madeItToLogin, .ok ()⟩

/-- Virtual-host routing step of `Proxy.handleConnection`: an unknown
server address is answered with a Disconnect packet naming it; a known
address routes on (no reply written at this stage). -/
def Proxy.handleConnection (servers : List String) (h : Handshake) : Option Packet :=
  if servers.contains h.serverAddress then none
  else some (disconnectPacket ("Unknown server: " ++ h.serverAddress))

/-- One per-server iteration of the `Proxy.watcher` loop body
(`proxy.go`): with live connections nothing happens; otherwise the
cloud status is fetched (on error, or when not RUNNING, the server is
skipped); an unset `emptySince` is initialised to now; and when the
emptiness has outlasted `ShutdownAfter` the watcher calls `Server.Stop`
and unconditionally clears `emptySince`, whether or not the stop
succeeded.  Returns the RPCs issued and the updated state. -/
def Proxy.watcherTick (p : CloudProvider) (cfg : ServerConfig)
    (st : ServerState) (now : Nat) : List CloudRPC × ServerState :=
  if st.connections ≠ 0 then ([], st)
  else
    match p.status with
    | .error _ => ([.statusRPC], st)
    | .ok s =>
      if s ≠ ProviderStatus.running then ([.statusRPC], st)
      else
        let emptySince := st.emptySince.getD now
        let st1 := { st with emptySince := some emptySince }
        if now - emptySince > cfg.shutdownAfter then
          let (rpcs, _) := Server.Stop p
          (.statusRPC :: rpcs, { st1 with emptySince := none })
        else ([.statusRPC], st1)

/-- Outcome of `Proxy.Stop`: whether the listener was closed and
whether the connection-drain wait was entered before returning. -/
structure StopResult where
  listenerClosed : Bool
  waitedForDrain : Bool
deriving DecidableEq, Repr

/-- `Proxy.Stop` of `proxy.go`: when the listener is present the
function returns the result of closing it immediately; only when the
listener is absent does control reach the drain loop, which waits (in
100 ms polls) while any server still has connections. -/
def Proxy.Stop (listenerPresent : Bool) (conns : List Nat) : StopResult :=
  if listenerPresent then ⟨true, false⟩
  else ⟨false, conns.any (fun c => c > 0)⟩

/-- Reduction of `Client.Handshake` on a well-formed handshake packet at
the head of the input. -/
theorem Client.Handshake_cons (p : Packet) (rest : List Packet)
    (pv port ns : Nat) (addr : String)
    (h0 : p.id = 0) (hscan : scanHandshake p.data = some (pv, addr, port, ns)) :
    Client.Handshake (p :: rest) = .ok (⟨p, pv, addr, port, ns⟩, rest) := by
  simp [Client.Handshake, h0, hscan]

/-- Reduction of `Client.ReadLoginStart` on a well-formed login-start
packet at the head of the input. -/
theorem Client.ReadLoginStart_cons (p : Packet) (rest : List Packet)
    (nm : String) (tr : List Nat)
    (h0 : p.id = 0) (hscan : readMCString p.data = some (nm, tr)) :
    Client.ReadLoginStart (p :: rest) = .ok (⟨nm⟩, p, rest) := by
  simp [Client.ReadLoginStart, h0, hscan]

/-- C8: on a login that proceeds to piping (handshake next state 2,
player admitted by the whitelist policy, cloud status RUNNING), the
backend receives, after the dial and before the pipe starts, first the
exact original handshake packet and then the exact original login-start
packet, the packets as read from the client rather than re-encodings of
the parsed fields, so trailing bytes in either packet are preserved. -/
theorem c8_replay_original_bytes
    (cfg : ServerConfig) (p : CloudProvider) (st : ServerState)
    (ping : Except String Status) (hsP loginP : Packet) (rest : List Packet)
    (pv port : Nat) (addr nm : String) (tr : List Nat)
    (hid : hsP.id = 0)
    (hscan : scanHandshake hsP.data = some (pv, addr, port, 2))
    (lid : loginP.id = 0)
    (lscan : readMCString loginP.data = some (nm, tr))
    (hwl : cfg.whitelist = [] ∨ Connection.isWhitelisted cfg.whitelist nm = true)
    (hrun : p.status = .ok .running) :
    (Connection.Proxy cfg p st ping (hsP :: loginP :: rest)).events
      = [.rpc .statusRPC, .dial, .backendWrite hsP, .backendWrite loginP, .pipe] := by
  have hh := Client.Handshake_cons _ (loginP :: rest) _ _ _ _ hid hscan
  have hl := Client.ReadLoginStart_cons _ rest _ _ lid lscan
  have hwlFalse : ¬(cfg.whitelist ≠ [] ∧ ¬Connection.isWhitelisted cfg.whitelist nm) := by
    rcases hwl with h | h
    · simp [h]
    · simp [h]
  simp [Connection.Proxy, hh, Connection.checkState, hrun, hl, hwlFalse]
  intro h
  rcases hwl with h' | h'
  · exact absurd h' h
  · exact h'

/-- Witness for C8 at concrete packets: the handshake body carries two
trailing bytes `[99, 99]` beyond the scanned fields and the login-start
body two trailing bytes `[7, 7]`; both reach the backend intact. -/
theorem c8_replay_original_bytes_witness :
    (Connection.Proxy ⟨[], 900⟩ ⟨.ok .running, .ok (), .ok ()⟩ ⟨0, none, none⟩
        (.error ("unused"))
        [⟨0, [242, 5, 4, 109, 99, 46, 97, 99, 221, 2, 99, 99]⟩,
         ⟨0, [5, 97, 108, 105, 99, 101, 7, 7]⟩]).events
      = [.rpc .statusRPC, .dial,
         .backendWrite ⟨0, [242, 5, 4, 109, 99, 46, 97, 99, 221, 2, 99, 99]⟩,
         .backendWrite ⟨0, [5, 97, 108, 105, 99, 101, 7, 7]⟩, .pipe] :=
  c8_replay_original_bytes ⟨[], 900⟩ ⟨.ok .running, .ok (), .ok ()⟩ ⟨0, none, none⟩
    (.error ("unused")) ⟨0, [242, 5, 4, 109, 99, 46, 97, 99, 221, 2, 99, 99]⟩
    ⟨0, [5, 97, 108, 105, 99, 101, 7, 7]⟩ [] 754 25565 ("mc.a") ("alice") [7, 7]
    (by decide) (by decide) (by decide) (by decide) (Or.inl (by decide)) rfl

/-- C1: evaluation of the code at the failing input.  Whitelist
`["alice"]`, login name `"mallory"`, cloud status RUNNING: the source
sends the whitelist Disconnect but, lacking a return after it, still
dials the backend, replays the packets and starts piping; and the
`OnLogin` hook has already incremented `connections` before the
whitelist check, so the counter reads 1 for the rejected player.  This
contradicts the claim, which requires closing without dialing or piping
and no increment. -/
theorem c1_whitelist_missing_return_eval :
    (let r := Connection.Proxy ⟨["alice"], 900⟩ ⟨.ok .running, .ok (), .ok ()⟩
        ⟨0, none, none⟩ (.error ("unused"))
        [⟨0, [242, 5, 4, 109, 99, 46, 97, 99, 221, 2]⟩,
         ⟨0, [7, 109, 97, 108, 108, 111, 114, 121]⟩]
     r.events
        = [.rpc .statusRPC,
           .clientWrite (disconnectPacket ("You are not whitelisted on this server")),
           .dial,
           .backendWrite ⟨0, [242, 5, 4, 109, 99, 46, 97, 99, 221, 2]⟩,
           .backendWrite ⟨0, [7, 109, 97, 108, 108, 111, 114, 121]⟩,
           .pipe]
      ∧ r.state.connections = 1
      ∧ r.madeItToLogin = true) :=
  ⟨rfl, rfl, rfl⟩

/-- C2 counterexample: with the cloud status STARTING, a login attempt
does invoke the provider Start RPC (`checkState` calls `Server.Start`
for every non-RUNNING status, and `Server.Start` only skips the RPC
when its own status read says RUNNING), contradicting the claim that
the RPC is not invoked when the status is STARTING. -/
theorem c2_start_rpc_on_starting_counterexample :
    Event.rpc CloudRPC.startRPC ∈
      (Connection.Proxy ⟨[], 900⟩ ⟨.ok .starting, .ok (), .ok ()⟩ ⟨0, none, none⟩
        (.error ("unused"))
        [⟨0, [242, 5, 4, 109, 99, 46, 97, 99, 221, 2]⟩,
         ⟨0, [5, 97, 108, 105, 99, 101]⟩]).events := by
  have h : (Connection.Proxy ⟨[], 900⟩ ⟨.ok .starting, .ok (), .ok ()⟩ ⟨0, none, none⟩
        (.error ("unused"))
        [⟨0, [242, 5, 4, 109, 99, 46, 97, 99, 221, 2]⟩,
         ⟨0, [5, 97, 108, 105, 99, 101]⟩]).events
      = [.rpc .statusRPC, .rpc .statusRPC, .rpc .startRPC,
         .clientWrite (disconnectPacket
           ("Server is being started, please try again later"))] := rfl
  rw [h]
  simp

/-- C2 amended: on a login attempt with any non-RUNNING cloud status
(STOPPED, STARTING, STOPPING or UNKNOWN alike) the provider Start RPC
is always issued; and when that RPC succeeds the client receives the
Disconnect "Server is being started, please try again later" and the
connection ends without dialing or piping. -/
theorem c2_amended_start_and_disconnect
    (cfg : ServerConfig) (p : CloudProvider) (st : ServerState)
    (ping : Except String Status) (hsP loginP : Packet) (rest : List Packet)
    (pv port : Nat) (addr nm : String) (tr : List Nat) (s : ProviderStatus)
    (hid : hsP.id = 0)
    (hscan : scanHandshake hsP.data = some (pv, addr, port, 2))
    (lid : loginP.id = 0)
    (lscan : readMCString loginP.data = some (nm, tr))
    (hwlEmpty : cfg.whitelist = [])
    (hst : p.status = .ok s) (hnr : s ≠ .running) :
    (let r := Connection.Proxy cfg p st ping (hsP :: loginP :: rest)
     Event.rpc CloudRPC.startRPC ∈ r.events
      ∧ Event.dial ∉ r.events ∧ Event.pipe ∉ r.events
      ∧ (p.startRes = .ok () →
          r.events = [.rpc .statusRPC, .rpc .statusRPC, .rpc .startRPC,
            .clientWrite (disconnectPacket
              ("Server is being started, please try again later"))]
            ∧ r.result = .ok ())) := by
  have hh := Client.Handshake_cons _ (loginP :: rest) _ _ _ _ hid hscan
  have hl := Client.ReadLoginStart_cons _ rest _ _ lid lscan
  have hstart : Server.Start p = ([.statusRPC, .startRPC], p.startRes) := by
    simp [Server.Start, hst, hnr]
  cases hres : p.startRes with
  | error e =>
    simp [Connection.Proxy, hh, Connection.checkState, hst, hl, hwlEmpty, hnr,
      hstart, hres]
  | ok u =>
    simp [Connection.Proxy, hh, Connection.checkState, hst, hl, hwlEmpty, hnr,
      hstart, hres]

/-- Witness for C2's amended theorem at the STOPPED status with a
successful Start call. -/
theorem c2_amended_start_and_disconnect_witness :
    (let r := Connection.Proxy ⟨[], 900⟩ ⟨.ok .stopped, .ok (), .ok ()⟩ ⟨0, none, none⟩
        (.error ("unused"))
        [⟨0, [242, 5, 4, 109, 99, 46, 97, 99, 221, 2]⟩,
         ⟨0, [5, 97, 108, 105, 99, 101]⟩]
     Event.rpc CloudRPC.startRPC ∈ r.events
      ∧ Event.dial ∉ r.events ∧ Event.pipe ∉ r.events
      ∧ ((⟨.ok .stopped, .ok (), .ok ()⟩ : CloudProvider).startRes = .ok () →
          r.events = [.rpc .statusRPC, .rpc .statusRPC, .rpc .startRPC,
            .clientWrite (disconnectPacket
              ("Server is being started, please try again later"))]
            ∧ r.result = .ok ())) :=
  c2_amended_start_and_disconnect ⟨[], 900⟩ ⟨.ok .stopped, .ok (), .ok ()⟩
    ⟨0, none, none⟩ (.error ("unused"))
    ⟨0, [242, 5, 4, 109, 99, 46, 97, 99, 221, 2]⟩ ⟨0, [5, 97, 108, 105, 99, 101]⟩
    [] 754 25565 ("mc.a") ("alice") [] ProviderStatus.stopped (by decide) (by decide)
    (by decide) (by decide) rfl rfl (by decide)

/-- C3 counterexample: a close that decrements `connections` from 1 to
0 leaves `emptySince` untouched — it is still null immediately after
the decrement, because the `OnClose` hook only decrements the counter
and never stores a timestamp. -/
theorem c3_emptySince_still_null_counterexample :
    (ConnectionHooks.OnClose true ⟨1, none, none⟩).connections = 0
      ∧ (ConnectionHooks.OnClose true ⟨1, none, none⟩).emptySince = none := by
  constructor
  · rfl
  · rfl

/-- C3 amended: the `OnClose` decrement never touches `emptySince` (so
it remains null right after the 1-to-0 transition); `emptySince`
becomes non-null only on the next idle-watcher tick that observes zero
connections and a RUNNING cloud status, and it is set to that tick's
current time. -/
theorem c3_amended_emptySince_set_by_watcher :
    (∀ st : ServerState,
        (ConnectionHooks.OnClose true st).emptySince = st.emptySince
          ∧ (ConnectionHooks.OnClose true st).connections
              = (st.connections + (u64Mod - 1)) % u64Mod)
  ∧ (∀ (p : CloudProvider) (cfg : ServerConfig) (st : ServerState) (now : Nat),
        st.connections = 0 → st.emptySince = none → p.status = .ok .running →
        (Proxy.watcherTick p cfg st now).2.emptySince = some now) := by
  constructor
  · intro st
    constructor
    · simp [ConnectionHooks.OnClose]
    · simp [ConnectionHooks.OnClose]
  · intro p cfg st now hconn hempty hrun
    simp [Proxy.watcherTick, hconn, hempty, hrun]

/-- Witness for C3's amended theorem: a close from one connection, then
a watcher tick at time 42 over a RUNNING backend sets `emptySince` to
42. -/
theorem c3_amended_emptySince_set_by_watcher_witness :
    ((ConnectionHooks.OnClose true ⟨1, some 7, none⟩).emptySince = some 7
        ∧ (ConnectionHooks.OnClose true ⟨1, some 7, none⟩).connections
            = (1 + (u64Mod - 1)) % u64Mod)
    ∧ (Proxy.watcherTick ⟨.ok .running, .ok (), .ok ()⟩ ⟨[], 900⟩
          ⟨0, none, none⟩ 42).2.emptySince = some 42 :=
  ⟨c3_amended_emptySince_set_by_watcher.1 ⟨1, some 7, none⟩,
   c3_amended_emptySince_set_by_watcher.2 ⟨.ok .running, .ok (), .ok ()⟩ ⟨[], 900⟩
     ⟨0, none, none⟩ 42 rfl rfl rfl⟩

/-- C4: on a watcher tick where the backend has zero connections, the
fetched cloud status is RUNNING and `emptySince` was set more than
`ShutdownAfter` ago, the watcher issues the Stop RPC (via
`Server.Stop`) and clears `emptySince` whatever the stop's result; on a
subsequent tick whose fetched status is no longer RUNNING no Stop RPC
is issued and the state is unchanged, so Stop fires exactly once for
the empty period. -/
theorem c4_watcher_stops_once
    (p p2 : CloudProvider) (cfg : ServerConfig) (st : ServerState)
    (t now now2 : Nat) (s2 : ProviderStatus)
    (hconn : st.connections = 0) (hstat : p.status = .ok .running)
    (hempty : st.emptySince = some t) (hexp : now - t > cfg.shutdownAfter)
    (hstat2 : p2.status = .ok s2) (hnr : s2 ≠ .running) :
    (Proxy.watcherTick p cfg st now).1 = [.statusRPC, .statusRPC, .stopRPC]
    ∧ (Proxy.watcherTick p cfg st now).2.emptySince = none
    ∧ (Proxy.watcherTick p cfg st now).2.connections = 0
    ∧ Proxy.watcherTick p2 cfg (Proxy.watcherTick p cfg st now).2 now2
        = ([.statusRPC], (Proxy.watcherTick p cfg st now).2) := by
  have hstop : Server.Stop p = ([.statusRPC, .stopRPC], p.stopRes) := by
    simp [Server.Stop, hstat]
  have h1 : Proxy.watcherTick p cfg st now
      = ([.statusRPC, .statusRPC, .stopRPC],
         { st with emptySince := none }) := by
    simp [Proxy.watcherTick, hconn, hstat, hempty, hexp, hstop]
  refine ⟨by rw [h1], by rw [h1], by rw [h1]; exact hconn, ?_⟩
  rw [h1]
  simp [Proxy.watcherTick, hconn, hstat2, hnr]

/-- Witness for C4 at a concrete provider pair: `ShutdownAfter` 10,
empty since time 0, first tick at time 11 with RUNNING status (and a
failing Stop RPC, to exhibit that the result does not matter), second
tick at time 12 with STOPPING status. -/
theorem c4_watcher_stops_once_witness :
    (Proxy.watcherTick ⟨.ok .running, .ok (), .error ("stop failed")⟩ ⟨[], 10⟩
        ⟨0, some 0, none⟩ 11).1 = [.statusRPC, .statusRPC, .stopRPC]
    ∧ (Proxy.watcherTick ⟨.ok .running, .ok (), .error ("stop failed")⟩ ⟨[], 10⟩
        ⟨0, some 0, none⟩ 11).2.emptySince = none
    ∧ (Proxy.watcherTick ⟨.ok .running, .ok (), .error ("stop failed")⟩ ⟨[], 10⟩
        ⟨0, some 0, none⟩ 11).2.connections = 0
    ∧ Proxy.watcherTick ⟨.ok .stopping, .ok (), .ok ()⟩ ⟨[], 10⟩
        (Proxy.watcherTick ⟨.ok .running, .ok (), .error ("stop failed")⟩ ⟨[], 10⟩
          ⟨0, some 0, none⟩ 11).2 12
        = ([.statusRPC],
           (Proxy.watcherTick ⟨.ok .running, .ok (), .error ("stop failed")⟩ ⟨[], 10⟩
             ⟨0, some 0, none⟩ 11).2) :=
  c4_watcher_stops_once ⟨.ok .running, .ok (), .error ("stop failed")⟩
    ⟨.ok .stopping, .ok (), .ok ()⟩ ⟨[], 10⟩ ⟨0, some 0, none⟩ 0 11 12
    ProviderStatus.stopping rfl rfl rfl (by decide) rfl (by decide)

/-- C5 counterexample: `Server.Start` on a provider whose status reads
RUNNING still issues one provider RPC — the Status query — so its RPC
trace is not empty; symmetrically for `Server.Stop` on STOPPED. -/
theorem c5_status_rpc_still_issued_counterexample :
    (Server.Start ⟨.ok .running, .ok (), .ok ()⟩).1 = [.statusRPC]
    ∧ (Server.Start ⟨.ok .running, .ok (), .ok ()⟩).1 ≠ ([] : List CloudRPC)
    ∧ (Server.Stop ⟨.ok .stopped, .ok (), .ok ()⟩).1 = [.statusRPC]
    ∧ (Server.Stop ⟨.ok .stopped, .ok (), .ok ()⟩).1 ≠ ([] : List CloudRPC) := by
  refine ⟨rfl, ?_, rfl, ?_⟩
  · decide
  · decide

/-- C5 amended: `Server.Start` when the status read returns RUNNING
issues no mutating RPC — no provider Start and no provider Stop — and
returns success, its only provider traffic being the single Status
query; symmetrically `Server.Stop` on STOPPED. -/
theorem c5_amended_idempotent_no_mutation (p : CloudProvider) :
    (p.status = .ok .running →
        Server.Start p = ([.statusRPC], .ok ())
          ∧ CloudRPC.startRPC ∉ (Server.Start p).1
          ∧ CloudRPC.stopRPC ∉ (Server.Start p).1)
    ∧ (p.status = .ok .stopped →
        Server.Stop p = ([.statusRPC], .ok ())
          ∧ CloudRPC.stopRPC ∉ (Server.Stop p).1
          ∧ CloudRPC.startRPC ∉ (Server.Stop p).1) := by
  constructor
  · intro h
    have he : Server.Start p = ([.statusRPC], .ok ()) := by
      simp [Server.Start, h]
    refine ⟨he, ?_, ?_⟩ <;> rw [he] <;> decide
  · intro h
    have he : Server.Stop p = ([.statusRPC], .ok ()) := by
      simp [Server.Stop, h]
    refine ⟨he, ?_, ?_⟩ <;> rw [he] <;> decide

/-- Witness for C5's amended theorem at concrete providers. -/
theorem c5_amended_idempotent_no_mutation_witness :
    (Server.Start ⟨.ok .running, .error ("boom"), .error ("boom")⟩
        = ([.statusRPC], .ok ())
      ∧ CloudRPC.startRPC
          ∉ (Server.Start ⟨.ok .running, .error ("boom"), .error ("boom")⟩).1
      ∧ CloudRPC.stopRPC
          ∉ (Server.Start ⟨.ok .running, .error ("boom"), .error ("boom")⟩).1)
    ∧ (Server.Stop ⟨.ok .stopped, .error ("boom"), .error ("boom")⟩
        = ([.statusRPC], .ok ())
      ∧ CloudRPC.stopRPC
          ∉ (Server.Stop ⟨.ok .stopped, .error ("boom"), .error ("boom")⟩).1
      ∧ CloudRPC.startRPC
          ∉ (Server.Stop ⟨.ok .stopped, .error ("boom"), .error ("boom")⟩).1) :=
  ⟨(c5_amended_idempotent_no_mutation
      ⟨.ok .running, .error ("boom"), .error ("boom")⟩).1 rfl,
   (c5_amended_idempotent_no_mutation
      ⟨.ok .stopped, .error ("boom"), .error ("boom")⟩).2 rfl⟩

/-- C6 counterexample: when the cloud status fetch fails at the head of
`checkState`, the login connection is terminated with an error and the
event trace contains no client write at all — the proxy closes the
connection without sending any reply, contradicting the claim that a
Disconnect always precedes such a close (the same happens when
`Server.Start` fails). -/
theorem c6_no_reply_on_status_error_counterexample :
    (let r := Connection.Proxy ⟨[], 900⟩ ⟨.error ("provider outage"), .ok (), .ok ()⟩
        ⟨0, none, none⟩ (.error ("unused"))
        [⟨0, [242, 5, 4, 109, 99, 46, 97, 99, 221, 2]⟩,
         ⟨0, [5, 97, 108, 105, 99, 101]⟩]
     r.events = [.rpc .statusRPC] ∧ r.result = .error ("provider outage")) :=
  ⟨rfl, rfl⟩

/-- C6 amended: the Disconnect packet (id 0x00, single JSON string
body) is written on the unknown-virtual-host path, on the whitelist
rejection path and on the backend-not-running path with a successful
Start call; but when the cloud status fetch errors, or when the
provider Start RPC fails, the proxy terminates the connection without
writing any packet to the client. -/
theorem c6_amended_disconnect_coverage :
    (∀ (reason : String), (disconnectPacket reason).id = 0
        ∧ (disconnectPacket reason).data = encodeMCString (disconnectJson reason))
    ∧ (∀ (servers : List String) (h : Handshake),
        servers.contains h.serverAddress = false →
        Proxy.handleConnection servers h
          = some (disconnectPacket ("Unknown server: " ++ h.serverAddress)))
    ∧ (∀ (cfg : ServerConfig) (p : CloudProvider) (st : ServerState)
        (ping : Except String Status) (hsP loginP : Packet) (rest : List Packet)
        (pv port : Nat) (addr nm : String) (tr : List Nat),
        hsP.id = 0 → scanHandshake hsP.data = some (pv, addr, port, 2) →
        loginP.id = 0 → readMCString loginP.data = some (nm, tr) →
        cfg.whitelist ≠ [] → Connection.isWhitelisted cfg.whitelist nm = false →
        p.status = .ok .running →
        Event.clientWrite (disconnectPacket ("You are not whitelisted on this server"))
          ∈ (Connection.Proxy cfg p st ping (hsP :: loginP :: rest)).events)
    ∧ (∀ (cfg : ServerConfig) (p : CloudProvider) (st : ServerState)
        (ping : Except String Status) (hsP loginP : Packet) (rest : List Packet)
        (pv port : Nat) (addr nm : String) (tr : List Nat) (s : ProviderStatus),
        hsP.id = 0 → scanHandshake hsP.data = some (pv, addr, port, 2) →
        loginP.id = 0 → readMCString loginP.data = some (nm, tr) →
        cfg.whitelist = [] → p.status = .ok s → s ≠ .running →
        p.startRes = .ok () →
        Event.clientWrite (disconnectPacket
            ("Server is being started, please try again later"))
          ∈ (Connection.Proxy cfg p st ping (hsP :: loginP :: rest)).events)
    ∧ (∀ (cfg : ServerConfig) (p : CloudProvider) (st : ServerState)
        (ping : Except String Status) (hsP loginP : Packet) (rest : List Packet)
        (pv port ns : Nat) (addr : String) (e : String),
        hsP.id = 0 → scanHandshake hsP.data = some (pv, addr, port, ns) →
        p.status = .error e →
        (Connection.Proxy cfg p st ping (hsP :: loginP :: rest)).events
            = [.rpc .statusRPC]
          ∧ (Connection.Proxy cfg p st ping (hsP :: loginP :: rest)).result
              = .error e)
    ∧ (∀ (cfg : ServerConfig) (p : CloudProvider) (st : ServerState)
        (ping : Except String Status) (hsP loginP : Packet) (rest : List Packet)
        (pv port : Nat) (addr nm : String) (tr : List Nat) (s : ProviderStatus)
        (e : String),
        hsP.id = 0 → scanHandshake hsP.data = some (pv, addr, port, 2) →
        loginP.id = 0 → readMCString loginP.data = some (nm, tr) →
        cfg.whitelist = [] → p.status = .ok s → s ≠ .running →
        p.startRes = .error e →
        (Connection.Proxy cfg p st ping (hsP :: loginP :: rest)).events
            = [.rpc .statusRPC, .rpc .statusRPC, .rpc .startRPC]
          ∧ (Connection.Proxy cfg p st ping (hsP :: loginP :: rest)).result
              = .error e) := by
  refine ⟨fun reason => ⟨rfl, rfl⟩, ?_, ?_, ?_, ?_, ?_⟩
  · intro servers h hmiss
    simp [Proxy.handleConnection, hmiss]
    simpa using hmiss
  · intro cfg p st ping hsP loginP rest pv port addr nm tr hid hscan lid lscan
      hwlne hwlmiss hrun
    have hh := Client.Handshake_cons _ (loginP :: rest) _ _ _ _ hid hscan
    have hl := Client.ReadLoginStart_cons _ rest _ _ lid lscan
    simp [Connection.Proxy, hh, Connection.checkState, hrun, hl, hwlne, hwlmiss]
  · intro cfg p st ping hsP loginP rest pv port addr nm tr s hid hscan lid lscan
      hwl hst hnr hstart
    have hh := Client.Handshake_cons _ (loginP :: rest) _ _ _ _ hid hscan
    have hl := Client.ReadLoginStart_cons _ rest _ _ lid lscan
    have hsrv : Server.Start p = ([.statusRPC, .startRPC], p.startRes) := by
      simp [Server.Start, hst, hnr]
    simp [Connection.Proxy, hh, Connection.checkState, hst, hl, hwl, hnr,
      hsrv, hstart]
  · intro cfg p st ping hsP loginP rest pv port ns addr e hid hscan herr
    have hh := Client.Handshake_cons _ (loginP :: rest) _ _ _ _ hid hscan
    constructor <;> simp [Connection.Proxy, hh, Connection.checkState, herr]
  · intro cfg p st ping hsP loginP rest pv port addr nm tr s e hid hscan lid
      lscan hwl hst hnr hstart
    have hh := Client.Handshake_cons _ (loginP :: rest) _ _ _ _ hid hscan
    have hl := Client.ReadLoginStart_cons _ rest _ _ lid lscan
    have hsrv : Server.Start p = ([.statusRPC, .startRPC], p.startRes) := by
      simp [Server.Start, hst, hnr]
    constructor <;>
      simp [Connection.Proxy, hh, Connection.checkState, hst, hl, hwl, hnr,
        hsrv, hstart]

/-- Witness for C6's amended theorem, instantiating every conjunct at a
concrete input. -/
theorem c6_amended_disconnect_coverage_witness :
    ((disconnectPacket ("x")).id = 0
        ∧ (disconnectPacket ("x")).data = encodeMCString (disconnectJson ("x")))
    ∧ Proxy.handleConnection [("mc.a")] ⟨⟨0, []⟩, 754, ("mc.b"), 25565, 1⟩
        = some (disconnectPacket ("Unknown server: mc.b"))
    ∧ Event.clientWrite (disconnectPacket ("You are not whitelisted on this server"))
        ∈ (Connection.Proxy ⟨[("alice")], 900⟩ ⟨.ok .running, .ok (), .ok ()⟩
            ⟨0, none, none⟩ (.error ("unused"))
            [⟨0, [242, 5, 4, 109, 99, 46, 97, 99, 221, 2]⟩,
             ⟨0, [7, 109, 97, 108, 108, 111, 114, 121]⟩]).events
    ∧ Event.clientWrite (disconnectPacket
          ("Server is being started, please try again later"))
        ∈ (Connection.Proxy ⟨[], 900⟩ ⟨.ok .stopped, .ok (), .ok ()⟩
            ⟨0, none, none⟩ (.error ("unused"))
            [⟨0, [242, 5, 4, 109, 99, 46, 97, 99, 221, 2]⟩,
             ⟨0, [5, 97, 108, 105, 99, 101]⟩]).events
    ∧ ((Connection.Proxy ⟨[], 900⟩ ⟨.error ("outage"), .ok (), .ok ()⟩
            ⟨0, none, none⟩ (.error ("unused"))
            [⟨0, [242, 5, 4, 109, 99, 46, 97, 99, 221, 2]⟩,
             ⟨0, [5, 97, 108, 105, 99, 101]⟩]).events = [.rpc .statusRPC]
        ∧ (Connection.Proxy ⟨[], 900⟩ ⟨.error ("outage"), .ok (), .ok ()⟩
            ⟨0, none, none⟩ (.error ("unused"))
            [⟨0, [242, 5, 4, 109, 99, 46, 97, 99, 221, 2]⟩,
             ⟨0, [5, 97, 108, 105, 99, 101]⟩]).result = .error ("outage"))
    ∧ ((Connection.Proxy ⟨[], 900⟩ ⟨.ok .stopped, .error ("start failed"), .ok ()⟩
            ⟨0, none, none⟩ (.error ("unused"))
            [⟨0, [242, 5, 4, 109, 99, 46, 97, 99, 221, 2]⟩,
             ⟨0, [5, 97, 108, 105, 99, 101]⟩]).events
          = [.rpc .statusRPC, .rpc .statusRPC, .rpc .startRPC]
        ∧ (Connection.Proxy ⟨[], 900⟩ ⟨.ok .stopped, .error ("start failed"), .ok ()⟩
            ⟨0, none, none⟩ (.error ("unused"))
            [⟨0, [242, 5, 4, 109, 99, 46, 97, 99, 221, 2]⟩,
             ⟨0, [5, 97, 108, 105, 99, 101]⟩]).result = .error ("start failed")) :=
  ⟨c6_amended_disconnect_coverage.1 ("x"),
   c6_amended_disconnect_coverage.2.1 [("mc.a")] ⟨⟨0, []⟩, 754, ("mc.b"), 25565, 1⟩
     (by decide),
   c6_amended_disconnect_coverage.2.2.1 ⟨[("alice")], 900⟩
     ⟨.ok .running, .ok (), .ok ()⟩ ⟨0, none, none⟩ (.error ("unused"))
     ⟨0, [242, 5, 4, 109, 99, 46, 97, 99, 221, 2]⟩
     ⟨0, [7, 109, 97, 108, 108, 111, 114, 121]⟩ [] 754 25565 ("mc.a") ("mallory")
     [] (by decide) (by decide) (by decide) (by decide) (by decide) (by decide) rfl,
   c6_amended_disconnect_coverage.2.2.2.1 ⟨[], 900⟩ ⟨.ok .stopped, .ok (), .ok ()⟩
     ⟨0, none, none⟩ (.error ("unused"))
     ⟨0, [242, 5, 4, 109, 99, 46, 97, 99, 221, 2]⟩ ⟨0, [5, 97, 108, 105, 99, 101]⟩
     [] 754 25565 ("mc.a") ("alice") [] ProviderStatus.stopped (by decide)
     (by decide) (by decide) (by decide) rfl rfl (by decide) rfl,
   c6_amended_disconnect_coverage.2.2.2.2.1 ⟨[], 900⟩ ⟨.error ("outage"), .ok (), .ok ()⟩
     ⟨0, none, none⟩ (.error ("unused"))
     ⟨0, [242, 5, 4, 109, 99, 46, 97, 99, 221, 2]⟩ ⟨0, [5, 97, 108, 105, 99, 101]⟩
     [] 754 25565 2 ("mc.a") ("outage") (by decide) (by decide) rfl,
   c6_amended_disconnect_coverage.2.2.2.2.2 ⟨[], 900⟩
     ⟨.ok .stopped, .error ("start failed"), .ok ()⟩ ⟨0, none, none⟩
     (.error ("unused"))
     ⟨0, [242, 5, 4, 109, 99, 46, 97, 99, 221, 2]⟩ ⟨0, [5, 97, 108, 105, 99, 101]⟩
     [] 754 25565 ("mc.a") ("alice") [] ProviderStatus.stopped ("start failed")
     (by decide) (by decide) (by decide) (by decide) rfl rfl (by decide) rfl⟩

/-- C7: on a status request (next state 1) with the cloud status
STOPPED and no cached Minecraft status, the synthesized status has
version name "unknown" with protocol 754, zero max and online players
(with the nil sample slice) and description text
"Server status: STOPPED", plus the always-marshalled empty favicon; its
JSON body is the exact document the program writes, null sample and
empty favicon included; the subsequent Ping packet (id 0x01) is echoed
back as the identical packet, payload included; and the connection then
ends successfully without piping. -/
theorem c7_offline_status_synthesis
    (cfg : ServerConfig) (p : CloudProvider) (st : ServerState)
    (ping : Except String Status) (hsP reqP pingP : Packet) (rest : List Packet)
    (pv port : Nat) (addr : String)
    (hid : hsP.id = 0)
    (hscan : scanHandshake hsP.data = some (pv, addr, port, 1))
    (hreq : reqP.id = 0) (hping : pingP.id = 1)
    (hstopped : p.status = .ok .stopped)
    (hcache : st.lastMinecraftStatus = none) :
    (let offline : Status :=
        ⟨some ⟨"unknown", 754⟩, some ⟨0, 0, none⟩, some ⟨"Server status: STOPPED"⟩, ""⟩
     let r := Connection.Proxy cfg p st ping (hsP :: reqP :: pingP :: rest)
     r.events = [.rpc .statusRPC, .clientWrite (statusResponsePacket offline),
                 .clientWrite pingP]
      ∧ Status.toJson offline
          = "\x7b\"version\":\x7b\"name\":\"unknown\",\"protocol\":754\x7d,\"players\":\x7b\"max\":0,\"online\":0,\"sample\":null\x7d,\"description\":\x7b\"text\":\"Server status: STOPPED\"\x7d,\"favicon\":\"\"\x7d"
      ∧ r.result = .ok ()) := by
  have hh := Client.Handshake_cons _ (reqP :: pingP :: rest) _ _ _ _ hid hscan
  refine ⟨?_, by decide, ?_⟩ <;>
    simp [Connection.Proxy, hh, Connection.checkState, hstopped,
      Connection.status, hcache, Client.SendStatus, sendStatusLoop, hreq, hping,
      ProviderStatus.toString]

/-- Witness for C7 at the scenario's literal input: handshake to
"mc.a" with next state 1, then a StatusRequest and a Ping with payload
`0x0000000000000001`. -/
theorem c7_offline_status_synthesis_witness :
    (let offline : Status :=
        ⟨some ⟨"unknown", 754⟩, some ⟨0, 0, none⟩, some ⟨"Server status: STOPPED"⟩, ""⟩
     let r := Connection.Proxy ⟨[], 900⟩ ⟨.ok .stopped, .ok (), .ok ()⟩
        ⟨0, none, none⟩ (.error ("unused"))
        [⟨0, [242, 5, 4, 109, 99, 46, 97, 99, 221, 1]⟩, ⟨0, []⟩,
         ⟨1, [0, 0, 0, 0, 0, 0, 0, 1]⟩]
     r.events = [.rpc .statusRPC, .clientWrite (statusResponsePacket offline),
                 .clientWrite ⟨1, [0, 0, 0, 0, 0, 0, 0, 1]⟩]
      ∧ Status.toJson offline
          = "\x7b\"version\":\x7b\"name\":\"unknown\",\"protocol\":754\x7d,\"players\":\x7b\"max\":0,\"online\":0,\"sample\":null\x7d,\"description\":\x7b\"text\":\"Server status: STOPPED\"\x7d,\"favicon\":\"\"\x7d"
      ∧ r.result = .ok ()) :=
  c7_offline_status_synthesis ⟨[], 900⟩ ⟨.ok .stopped, .ok (), .ok ()⟩
    ⟨0, none, none⟩ (.error ("unused"))
    ⟨0, [242, 5, 4, 109, 99, 46, 97, 99, 221, 1]⟩ ⟨0, []⟩
    ⟨1, [0, 0, 0, 0, 0, 0, 0, 1]⟩ [] 754 25565 ("mc.a")
    (by decide) (by decide) (by decide) (by decide) rfl rfl

/-- C9: evaluation of `Proxy.Stop` at the failing situation.  Whenever
the listener is present — the normal state of a started proxy — the
function returns immediately after closing the listener, for any vector
of per-backend connection counts, never reaching the drain-polling loop
below the early return; so a shutdown with live connections does not
wait for them to reach zero. -/
theorem c9_stop_never_waits (conns : List Nat) :
    Proxy.Stop true conns = ⟨true, false⟩ := by
  simp [Proxy.Stop]

/-- C10: serving the status exchange reads at most two packets and
replies strictly per packet id — the JSON status response answers
exactly the inputs with id 0x00 and an identical echo answers exactly
the inputs with id 0x01, every other id being ignored, with input
exhaustion (a read error) ending the exchange early; in particular two
Pings and no StatusRequest yield exactly the two echoes and never a
status response. -/
theorem c10_sendStatus_per_packet (st : Status) (inc : List Packet) :
    (Client.SendStatus st inc
        = (inc.take 2).filterMap (fun p =>
            if p.id = 0 then some (statusResponsePacket st)
            else if p.id = 1 then some p else none))
    ∧ (∀ p q : Packet, p.id = 1 → q.id = 1 →
        Client.SendStatus st [p, q] = [p, q]
          ∧ statusResponsePacket st ∉ Client.SendStatus st [p, q]) := by
  constructor
  · match inc with
    | [] => simp [Client.SendStatus, sendStatusLoop]
    | [a] =>
      simp only [Client.SendStatus, sendStatusLoop, List.take, List.filterMap]
      split_ifs <;> simp_all [sendStatusLoop]
    | a :: b :: r =>
      simp only [Client.SendStatus, sendStatusLoop, List.take, List.filterMap]
      split_ifs <;> simp_all [sendStatusLoop]
  · intro p q hp hq
    have he : Client.SendStatus st [p, q] = [p, q] := by
      simp [Client.SendStatus, sendStatusLoop, hp, hq]
    refine ⟨he, ?_⟩
    rw [he]
    intro hmem
    have h01 : (statusResponsePacket st).id = 0 := rfl
    rcases List.mem_cons.mp hmem with h | h
    · rw [h] at h01
      omega
    · rw [List.mem_singleton.mp h] at h01
      omega

/-- Witness for C10 on a concrete status and a two-Ping input. -/
theorem c10_sendStatus_per_packet_witness :
    (Client.SendStatus ⟨none, none, none, ""⟩ [⟨1, [1]⟩, ⟨1, [2]⟩, ⟨0, []⟩]
        = ([⟨1, [1]⟩, ⟨1, [2]⟩, ⟨0, []⟩].take 2).filterMap (fun p =>
            if p.id = 0 then some (statusResponsePacket ⟨none, none, none, ""⟩)
            else if p.id = 1 then some p else none))
    ∧ (Client.SendStatus ⟨none, none, none, ""⟩ [⟨1, [1]⟩, ⟨1, [2]⟩]
        = [⟨1, [1]⟩, ⟨1, [2]⟩]
      ∧ statusResponsePacket ⟨none, none, none, ""⟩
          ∉ Client.SendStatus ⟨none, none, none, ""⟩ [⟨1, [1]⟩, ⟨1, [2]⟩]) :=
  ⟨(c10_sendStatus_per_packet ⟨none, none, none, ""⟩ [⟨1, [1]⟩, ⟨1, [2]⟩, ⟨0, []⟩]).1,
   (c10_sendStatus_per_packet ⟨none, none, none, ""⟩ []).2 ⟨1, [1]⟩ ⟨1, [2]⟩ rfl rfl⟩

end MCPreempt
